import Mathlib

/-!
WaterRower device driver and activity recorder: verified embedding

Shallow embedding of the WaterRower S4 serial driver (`WaterRowerS4` in
`src/heartratemonitor.ts`) and the activity recorder (`ActivityRecorder`,
complete variant in `src/activityrecorder.ts`), plus the shared data model
from `index.ts`.

Modelling conventions:
* JS numbers are modelled as rationals (`ℚ`); timestamps (`Date.now()`,
  milliseconds) as integers (`ℤ`).
* Serial lines are lists of characters; `String.prototype.startsWith` is
  `startsWith` below.
* Mutation of a shared `Measurement` object found by
  `measurements.find(m => m.metric === x)` is modelled as replacing the first
  list entry with that metric (`setMeasurement`); a separate heap model
  (`readVia` below) captures the object aliasing between devices and recorder.
* Effects are returned explicitly: MQTT publishes as `(Metric, value)` pairs,
  serial writes as the command strings handed to `port.write`.
-/

namespace WaterRower

/-- The closed metric set from `index.ts`
(`type Metric = "distance" | "power" | ...`). -/
inductive Metric where
  | distance | power | total_cycles | speed | cadence | split | heart_rate
deriving DecidableEq, Repr

/-- The fixed unit set from `index.ts` (`"m" | "watts" | "cycles" | "m/s" |
"spm" | "s/500 m" | "bpm"`). -/
inductive MetricUnit where
  | m | watts | cycles | mps | spm | sPer500m | bpm
deriving DecidableEq, Repr

/-- Structure `type Measurement = { value, unit, metric }` from `index.ts`. -/
structure Measurement where
  metric : Metric
  unit : MetricUnit
  value : ℚ
deriving DecidableEq, Repr

/-- Model of `measurements.find(m => m.metric === x)`: first entry with the metric. -/
def findMeasurement : List Measurement → Metric → Option Measurement
  | [], _ => none
  | m :: rest, x => if m.metric = x then some m else findMeasurement rest x

/-- Assignment `found.value = v` through the reference returned by `find`:
replaces the first entry carrying the metric. -/
def setMeasurement : List Measurement → Metric → ℚ → List Measurement
  | [], _, _ => []
  | m :: rest, x, v =>
      if m.metric = x then { m with value := v } :: rest
      else m :: setMeasurement rest x v

/-! ## JS numeric primitives used by the driver -/

/-- Hex digit value accepted by `parseInt(_, 16)`: `0-9`, `a-f`, `A-F`. -/
def hexDigitVal (c : Char) : Option ℕ :=
  if 48 ≤ c.toNat ∧ c.toNat ≤ 57 then some (c.toNat - 48)
  else if 97 ≤ c.toNat ∧ c.toNat ≤ 102 then some (c.toNat - 87)
  else if 65 ≤ c.toNat ∧ c.toNat ≤ 70 then some (c.toNat - 55)
  else none

/-- ASCII whitespace stripped by `parseInt` (JS also strips some Unicode
space characters, which never occur on this serial link). -/
def isJsWs (c : Char) : Bool :=
  decide (c.toNat = 9 ∨ c.toNat = 10 ∨ c.toNat = 11 ∨ c.toNat = 12 ∨
          c.toNat = 13 ∨ c.toNat = 32)

/-- The digit loop of `parseInt`: consume hex digits until the first
non-digit, accumulating the value; the remainder is ignored. -/
def hexDigitsAux : List Char → ℕ → ℕ
  | [], acc => acc
  | c :: cs, acc =>
      match hexDigitVal c with
      | some d => hexDigitsAux cs (acc * 16 + d)
      | none => acc

/-- Longest leading run of hex digits; `none` (JS `NaN`) when the first
character is not a hex digit. -/
def parseHexRun : List Char → Option ℕ
  | [] => none
  | c :: cs =>
      match hexDigitVal c with
      | some d => some (hexDigitsAux cs d)
      | none => none

/-- With radix 16, `parseInt` strips one leading `0x` / `0X`. -/
def strip0x (l : List Char) : List Char :=
  match l with
  | c0 :: c1 :: rest => if c0 = '0' ∧ (c1 = 'x' ∨ c1 = 'X') then rest else l
  | _ => l

/-- Semantics of `parseInt(s, 16)`: strip whitespace, read an optional sign, strip `0x`,
then take the longest leading hex-digit run; `none` is JS `NaN`. -/
def jsParseIntHex (s : List Char) : Option ℤ :=
  match s.dropWhile isJsWs with
  | [] => none
  | c :: rest =>
      if c = '-' then (parseHexRun (strip0x rest)).map (fun n => -(n : ℤ))
      else if c = '+' then (parseHexRun (strip0x rest)).map (fun n => (n : ℤ))
      else (parseHexRun (strip0x (c :: rest))).map (fun n => (n : ℤ))

/-- Field `data.substring(6, 10)`: the 4-character field at offset 6 (clamped). -/
def payloadField (data : List Char) : List Char := (data.drop 6).take 4

/-- Decoder `parseInt(data.substring(6, 10), 16) || 0` from
`WaterRowerS4.parseAndPublishData`: `NaN` collapses to `0` (and `0 || 0` is
`0`), so the `none` case yields `0`. -/
def decodeValue (data : List Char) : ℤ :=
  match jsParseIntHex (payloadField data) with
  | none => 0
  | some v => v

/-- Rounding `parseFloat(x.toFixed(1))`: round to one decimal place, ties away from
the smaller value (ECMA `toFixed` picks the larger candidate integer). -/
def toFixed1 (q : ℚ) : ℚ := (⌊q * 10 + 1 / 2⌋ : ℚ) / 10

/-! ## WaterRowerS4 driver (`src/heartratemonitor.ts`) -/

/-- JS truthiness of the `lastStrokeTimestamp` field
(`number | undefined`): falsy when absent or `0`. -/
def jsTruthy : Option ℤ → Bool
  | none => false
  | some t => t != 0

/-- Mutable state of a `WaterRowerS4` instance.  `activityTimeout` records
whether the 500 ms distance-poll interval is running; `port` whether the
serial port object exists (`send` is a logged no-op without it). -/
structure WRState where
  measurements : List Measurement
  lastStrokeTimestamp : Option ℤ
  activityTimeout : Bool
  port : Bool
deriving DecidableEq, Repr

/-- A publish on the MQTT bus: topic metric and serialized value. -/
abbrev Pub := Metric × ℚ

/-- Method `send(value)`: write the command when the port exists, otherwise log and
drop (`SendBeforeReady`). -/
def send (s : WRState) (cmd : String) : List String :=
  if s.port then [cmd] else []

/-- The six measurements owned by `WaterRowerS4`, in declaration order. -/
def wrMeasurements (d p tc sp c spl : ℚ) : List Measurement :=
  [⟨.distance, .m, d⟩, ⟨.power, .watts, p⟩, ⟨.total_cycles, .cycles, tc⟩,
   ⟨.speed, .mps, sp⟩, ⟨.cadence, .spm, c⟩, ⟨.split, .sPer500m, spl⟩]

/-- A `WaterRowerS4` state with the standard measurement list. -/
def mkWR (d p tc sp c spl : ℚ) (o : Option ℤ) (tmr port : Bool) : WRState :=
  ⟨wrMeasurements d p tc sp c spl, o, tmr, port⟩

/-- Method `WaterRowerS4.parseAndPublishData(data, metric)` at time `now`
(`Date.now()`), returning the new state and the publishes it performed. -/
def parseAndPublishData (data : List Char) (metric : Metric) (now : ℤ)
    (s : WRState) : WRState × List Pub :=
  let value : ℤ := decodeValue data
  match metric with
  | .distance =>
      match findMeasurement s.measurements .distance with
      | none => (s, [])
      | some _ =>
          ({ s with measurements := setMeasurement s.measurements .distance (value : ℚ) },
           [(.distance, (value : ℚ))])
  | .power =>
      match findMeasurement s.measurements .power with
      | none => (s, [])
      | some _ =>
          ({ s with measurements := setMeasurement s.measurements .power (value : ℚ) },
           [(.power, (value : ℚ))])
  | .cadence =>
      if jsTruthy s.lastStrokeTimestamp then
        let t := s.lastStrokeTimestamp.getD 0
        let cad := toFixed1 (60 * 1000 / ((now - t : ℤ) : ℚ))
        match findMeasurement s.measurements .cadence with
        | none => (s, [])  -- early return: the timestamp is NOT updated
        | some _ =>
            ({ s with measurements := setMeasurement s.measurements .cadence cad,
                      lastStrokeTimestamp := some now },
             [(.cadence, cad)])
      else
        ({ s with lastStrokeTimestamp := some now }, [])
  | .speed =>
      match findMeasurement s.measurements .speed with
      | none => (s, [])
      | some _ =>
          let spd : ℚ := (value : ℚ) / 100
          let s1 := { s with measurements := setMeasurement s.measurements .speed spd }
          if value ≠ 0 then
            let secondsPer500m : ℚ := 50000 / (value : ℚ)
            match findMeasurement s1.measurements .split with
            | none => (s1, [(.speed, spd)])
            | some _ =>
                ({ s1 with measurements := setMeasurement s1.measurements .split secondsPer500m },
                 [(.speed, spd), (.split, secondsPer500m)])
          else (s1, [(.speed, spd)])
  | .total_cycles =>
      match findMeasurement s.measurements .total_cycles with
      | none => (s, [])
      | some _ =>
          ({ s with measurements := setMeasurement s.measurements .total_cycles (value : ℚ) },
           [(.total_cycles, (value : ℚ))])
  | .split => (s, [])       -- no branch in the source matches these metrics
  | .heart_rate => (s, [])

/-- Model of `String.prototype.startsWith` on character lists. -/
def startsWith : List Char → List Char → Bool
  | [], _ => true
  | _ :: _, [] => false
  | p :: ps, c :: cs => p == c && startsWith ps cs

def wrToken : List Char := ['_', 'W', 'R', '_']
def iv4Token : List Char := ['I', 'V', '4']
def ssToken : List Char := ['S', 'S']
def idd088Token : List Char := ['I', 'D', 'D', '0', '8', '8']
def idd140Token : List Char := ['I', 'D', 'D', '1', '4', '0']
def idd057Token : List Char := ['I', 'D', 'D', '0', '5', '7']
def idd14aToken : List Char := ['I', 'D', 'D', '1', '4', 'A']

/-- The seven dispatch tokens of `WaterRowerS4.onData`, in source order. -/
def sevenTokens : List (List Char) :=
  [wrToken, iv4Token, ssToken, idd088Token, idd140Token, idd057Token, idd14aToken]

/-- Handler `WaterRowerS4.onData(data)` at time `now`: the sequence of independent
`startsWith` checks from the source.  Returns the new state, the publishes,
and the serial commands written, in order. -/
def onData (now : ℤ) (line : List Char) (s : WRState) :
    WRState × List Pub × List String :=
  let a1 : WRState × List Pub × List String :=
    if startsWith wrToken line then (s, [], send s "IV?") else (s, [], [])
  -- "IV4": firmware version is logged only; no state, publish, or send effect
  let a2 :=
    if startsWith ssToken line then
      let pr := parseAndPublishData [] Metric.cadence now a1.1
      let snds := send pr.1 "IRD088"
      let s2 := if pr.1.activityTimeout then pr.1
                else { pr.1 with activityTimeout := true }
      (s2, a1.2.1 ++ pr.2, a1.2.2 ++ snds)
    else a1
  let a3 :=
    if startsWith idd088Token line then
      let pr := parseAndPublishData line Metric.power now a2.1
      (pr.1, a2.2.1 ++ pr.2, a2.2.2 ++ send pr.1 "IRD140")
    else a2
  let a4 :=
    if startsWith idd140Token line then
      let pr := parseAndPublishData line Metric.total_cycles now a3.1
      (pr.1, a3.2.1 ++ pr.2, a3.2.2)
    else a3
  let a5 :=
    if startsWith idd057Token line then
      let pr := parseAndPublishData line Metric.distance now a4.1
      (pr.1, a4.2.1 ++ pr.2, a4.2.2 ++ send pr.1 "IRD14A")
    else a4
  let a6 :=
    if startsWith idd14aToken line then
      let pr := parseAndPublishData line Metric.speed now a5.1
      (pr.1, a5.2.1 ++ pr.2, a5.2.2)
    else a5
  a6

/-! ## ActivityRecorder (`src/activityrecorder.ts`, complete variant)

The repository's `activityrecorder.ts` carries two copies of the class; the
complete one (the variant whose `record`, `start` and `stop` bodies are not
commented out) is the one the behavior below follows. -/

/-- A line of the FIT-CSV output, structured.  `sessionData` carries the
start timestamp, elapsed time, final distance and final cycle count (the
sport/sub-sport constants `15`/`14` are implicit in the constructor);
`activityData` carries the start timestamp (with `num_sessions` fixed at 1). -/
inductive Row where
  | header
  | defFileId
  | dataFileId (ts : ℤ)
  | defRecord
  | defSession
  | defActivity
  | record (ts : ℤ) (fields : List (Metric × ℚ × MetricUnit))
  | sessionData (ts dur : ℤ) (dist cyc : ℚ)
  | activityData (ts : ℤ)
deriving DecidableEq, Repr

/-- Constant `GARMIN_EPOCH`. -/
def garminEpoch : ℤ := 631065600

/-- Timestamp `Math.floor(Date.now() / 1000) - GARMIN_EPOCH`. -/
def fitTs (now : ℤ) : ℤ := Int.fdiv now 1000 - garminEpoch

/-- Mutable state of an `ActivityRecorder`.  `rows` are the rows written to
the current file writer, `fileWriterSet` whether `this.fileWriter` was ever
assigned, `fileOpens` counts `fs.createWriteStream` calls and `fileCloses`
counts `close()` calls on the writer. -/
structure RecState where
  recordingInterval : Bool
  fitTimestampStart : ℤ
  fileWriterSet : Bool
  rows : List Row
  fileOpens : ℕ
  fileCloses : ℕ
  subs : List (String × Metric)
  cache : List Measurement
deriving DecidableEq, Repr

/-- The device set built in the main program:
`new ActivityRecorder([heartRateMonitor, waterRower])`. -/
def deviceTopics : List (String × List Metric) :=
  [("heart_rate_monitor", [.heart_rate]),
   ("waterrower", [.distance, .power, .total_cycles, .speed, .cadence, .split])]

/-- All `(deviceType, metric)` pairs the recorder subscribes to on start. -/
def allTopics : List (String × Metric) :=
  deviceTopics.flatMap (fun dt => dt.2.map (fun m => (dt.1, m)))

/-- The recorder cache for the main device set: the constructor pushes the
heart-rate monitor's measurement first, then the WaterRower's six
(`this.measurements.push(...device.measurements)`). -/
def recCache (hr d p tc sp c spl : ℚ) : List Measurement :=
  ⟨.heart_rate, .bpm, hr⟩ :: wrMeasurements d p tc sp c spl

/-- Effect of `device.reset()` on each device at start: `HeartRateMonitor` inherits
the base-class no-op; `WaterRowerS4.reset` zeroes each of its six
measurements (aliased into this cache, see the heap model below). -/
def resetDevices (cache : List Measurement) : List Measurement :=
  let c1 := setMeasurement cache .distance 0
  let c2 := setMeasurement c1 .power 0
  let c3 := setMeasurement c2 .total_cycles 0
  let c4 := setMeasurement c3 .speed 0
  let c5 := setMeasurement c4 .cadence 0
  setMeasurement c5 .split 0

/-- The header and definition rows written by `openFile`. -/
def openFileRows (ts : ℤ) : List Row :=
  [.header, .defFileId, .dataFileId ts, .defRecord, .defSession, .defActivity]

/-- Method `ActivityRecorder.start()` at time `now`: guarded on an existing
recording interval; otherwise resets the devices, subscribes to every
device/metric topic, opens a fresh output file (header and definition rows)
and starts the 1 Hz tick. -/
def ActivityRecorder.start (now : ℤ) (s : RecState) : RecState :=
  if s.recordingInterval then s
  else
    let s1 := { s with cache := resetDevices s.cache }
    let s2 := { s1 with subs := s1.subs ++ allTopics }
    let ts := fitTs now
    let s3 := { s2 with fitTimestampStart := ts, fileWriterSet := true,
                        fileOpens := s2.fileOpens + 1, rows := openFileRows ts }
    { s3 with recordingInterval := true }

/-- The fixed metric order of a data row in `record`. -/
def measurementIds : List Metric :=
  [.distance, .power, .total_cycles, .speed, .cadence, .heart_rate]

/-- The fields of one data row: for each metric id in order, the cached
measurement's metric, value and unit; a missing metric is skipped with an
error log.  (The source's `isNaN` guard is omitted: values are rationals
here and `NaN` is not representable.) -/
def recordFields (cache : List Measurement) : List (Metric × ℚ × MetricUnit) :=
  measurementIds.filterMap (fun mid =>
    match findMeasurement cache mid with
    | none => none
    | some m => some (m.metric, m.value, m.unit))

/-- The body of the 1 Hz tick (`ActivityRecorder.record`): skip when the
cached `total_cycles` exists and is exactly 0, otherwise produce one data
row. -/
def tickRow (now : ℤ) (cache : List Measurement) : Option Row :=
  match findMeasurement cache .total_cycles with
  | some tc =>
      if tc.value = 0 then none
      else some (.record (fitTs now) (recordFields cache))
  | none => some (.record (fitTs now) (recordFields cache))

/-- One recorder tick: append the data row, if any, to the output file. -/
def ActivityRecorder.record (now : ℤ) (s : RecState) : RecState :=
  match tickRow now s.cache with
  | none => s
  | some r => { s with rows := s.rows ++ [r] }

/-- Method `ActivityRecorder.stop()` at time `now`: clear the recording interval if
set, then unconditionally write the session and activity summary rows.
`none` models a thrown `TypeError`: `this.fileWriter.write` with no file
ever opened, or `distance.value` / `strokes.value` when the lookup found
nothing.  No `close()` is ever called on the writer. -/
def ActivityRecorder.stop (now : ℤ) (s : RecState) : Option RecState :=
  let s1 := if s.recordingInterval then { s with recordingInterval := false } else s
  if s1.fileWriterSet then
    let dur := fitTs now - s1.fitTimestampStart
    match findMeasurement s1.cache .distance, findMeasurement s1.cache .total_cycles with
    | some d, some tc =>
        some { s1 with rows := s1.rows ++
                 [.sessionData s1.fitTimestampStart dur d.value tc.value,
                  .activityData s1.fitTimestampStart] }
    | _, _ => none
  else none

/-! ## Heap model of measurement-object aliasing

`ActivityRecorder`'s constructor executes
`this.measurements.push(...device.measurements)`: the spread copies object
references, so the recorder's cache entries ARE the devices' measurement
objects.  Cells are numbered; a heap maps a cell to its current value; the
metric and unit of a cell are fixed at construction. -/

/-- A device as a list of references to its measurement cells. -/
structure DeviceRef where
  dtype : String
  cells : List (ℕ × Metric × MetricUnit)
deriving DecidableEq, Repr

/-- The recorder cache built by the constructor: the concatenation of the
devices' cell references, in device order (reference copies, not values). -/
def recorderCells (devs : List DeviceRef) : List (ℕ × Metric × MetricUnit) :=
  devs.flatMap (fun d => d.cells)

/-- The main program's device pair with one cell per measurement object. -/
def mainDevices : List DeviceRef :=
  [⟨"heart_rate_monitor", [(0, .heart_rate, .bpm)]⟩,
   ⟨"waterrower", [(1, .distance, .m), (2, .power, .watts),
                   (3, .total_cycles, .cycles), (4, .speed, .mps),
                   (5, .cadence, .spm), (6, .split, .sPer500m)]⟩]

/-- A driver's in-place mutation `measurement.value = v` of cell `i`. -/
def heapWrite (h : ℕ → ℚ) (i : ℕ) (v : ℚ) : ℕ → ℚ :=
  fun j => if j = i then v else h j

/-- Lookup `find(m => m.metric === x)` through a cell list, reading the heap. -/
def readVia (h : ℕ → ℚ) (cells : List (ℕ × Metric × MetricUnit))
    (x : Metric) : Option ℚ :=
  (cells.find? (fun c => decide (c.2.1 = x))).map (fun c => h c.1)

/-! ## Theorems -/

/-- Two tokens that both start a third list are comparable. -/
theorem startsWith_comparable : ∀ (p q s : List Char),
    startsWith p s = true → startsWith q s = true →
    startsWith p q = true ∨ startsWith q p = true := by
  intro p
  induction p with
  | nil => intro q s _ _; left; rfl
  | cons a ps ih =>
    intro q s h1 h2
    cases q with
    | nil => right; rfl
    | cons b qs =>
      cases s with
      | nil => exact absurd h1 (by simp [startsWith])
      | cons c cs =>
        simp only [startsWith, Bool.and_eq_true, beq_iff_eq] at h1 h2
        obtain ⟨rfl, h1'⟩ := h1
        obtain ⟨rfl, h2'⟩ := h2
        rcases ih qs cs h1' h2' with h | h <;>
          simp [startsWith, h]

/-- C1.  On each 1-second recorder tick, the cached `total_cycles` value
being exactly 0 suppresses the data row; otherwise exactly one data row is
produced carrying, in the fixed order distance, power, total_cycles, speed,
cadence, heart_rate, each metric's cached value and unit (a metric never
updated still holds its default 0 from initialization). -/
theorem C1_tick_gating (now : ℤ) (hr d p tc sp c spl : ℚ) :
    tickRow now (recCache hr d p tc sp c spl) =
      if tc = 0 then none
      else some (.record (fitTs now)
        [(.distance, d, .m), (.power, p, .watts), (.total_cycles, tc, .cycles),
         (.speed, sp, .mps), (.cadence, c, .spm), (.heart_rate, hr, .bpm)]) := by
  by_cases h : tc = 0 <;>
    simp [tickRow, recCache, wrMeasurements, findMeasurement, recordFields,
          measurementIds, h]

/-- C3.  On an IDD14A (pace) response with decoded raw value `v` (cm/s), the
published speed is `v / 100` (m/s); when `v ≠ 0` a split of `50000 / v`
seconds per 500 m is also published; when `v = 0` the split measurement is
left at its previous value and not published. -/
theorem C3_speed_split (now : ℤ) (rest : List Char) (d p tc sp c spl : ℚ)
    (o : Option ℤ) (tmr port : Bool) :
    onData now (idd14aToken ++ rest) (mkWR d p tc sp c spl o tmr port) =
      (mkWR d p tc ((decodeValue (idd14aToken ++ rest) : ℚ) / 100) c
        (if decodeValue (idd14aToken ++ rest) = 0 then spl
         else 50000 / (decodeValue (idd14aToken ++ rest) : ℚ)) o tmr port,
       (.speed, (decodeValue (idd14aToken ++ rest) : ℚ) / 100) ::
         (if decodeValue (idd14aToken ++ rest) = 0 then []
          else [(.split, 50000 / (decodeValue (idd14aToken ++ rest) : ℚ))]),
       []) := by
  simp only [idd14aToken, List.cons_append, List.nil_append]
  by_cases h : decodeValue ('I' :: 'D' :: 'D' :: '1' :: '4' :: 'A' :: rest) = 0 <;>
    simp [onData, parseAndPublishData, mkWR, wrMeasurements, findMeasurement,
          setMeasurement, startsWith, idd088Token, idd140Token,
          idd057Token, ssToken, iv4Token, wrToken, h]

/-- C6.  `ActivityRecorder.start` is idempotent: a second start without an
intervening stop returns the state unchanged; a start from a state with no
running session opens exactly one output file and leaves the tick running. -/
theorem C6_start_idempotent (n1 n2 : ℤ) (s : RecState) :
    ActivityRecorder.start n2 (ActivityRecorder.start n1 s) =
      ActivityRecorder.start n1 s
    ∧ (ActivityRecorder.start n1 s).recordingInterval = true
    ∧ (ActivityRecorder.start n1 s).fileOpens =
        (if s.recordingInterval then s.fileOpens else s.fileOpens + 1) := by
  by_cases h : s.recordingInterval <;> simp [ActivityRecorder.start, h]

/-- C8 counterexample.  The driver enforces no monotonicity on
`total_cycles`: after the lines `IDD1400005` then `IDD1400002` the cached
value drops from 5 to 2, refuting the claim that each update is greater
than or equal to the previous cached value. -/
theorem C8_cex :
    ((onData 1000 "IDD1400005".data
        (mkWR 0 0 0 0 0 0 none false true)).1.measurements.map
          Measurement.value) = [0, 0, 5, 0, 0, 0]
    ∧ ((onData 2000 "IDD1400002".data
        ((onData 1000 "IDD1400005".data
          (mkWR 0 0 0 0 0 0 none false true)).1)).1.measurements.map
          Measurement.value) = [0, 0, 2, 0, 0, 0]
    ∧ (2 : ℚ) < 5 := by decide

/-- C8 as amended.  Each IDD140 response overwrites the cached
`total_cycles` with the decoded payload value unconditionally (and publishes
it); no monotonicity check is performed, so the cached value is
non-decreasing only when the device's reported counts are. -/
theorem C8_overwrite (now : ℤ) (rest : List Char) (d p tc sp c spl : ℚ)
    (o : Option ℤ) (tmr port : Bool) :
    onData now (idd140Token ++ rest) (mkWR d p tc sp c spl o tmr port) =
      (mkWR d p (decodeValue (idd140Token ++ rest) : ℚ) sp c spl o tmr port,
       [(.total_cycles, (decodeValue (idd140Token ++ rest) : ℚ))], []) := by
  simp [onData, parseAndPublishData, mkWR, wrMeasurements, findMeasurement,
        setMeasurement, startsWith, idd14aToken, idd088Token, idd140Token,
        idd057Token, ssToken, iv4Token, wrToken]

/-- C2.  On a stroke-start (SS) line: with a previous stroke timestamp `t`
stored, a cadence of `60000 / (now - t)` strokes per minute rounded to one
decimal is computed and published; with no previous timestamp nothing is
published; in both cases the stored timestamp becomes `now` (and the power
query is sent and the distance-poll timer runs afterwards). -/
theorem C2_cadence (now t : ℤ) (rest : List Char) (d p tc sp c spl : ℚ)
    (tmr port : Bool) (ht : t ≠ 0) :
    onData now (ssToken ++ rest) (mkWR d p tc sp c spl (some t) tmr port) =
      (mkWR d p tc sp (toFixed1 (60 * 1000 / ((now - t : ℤ) : ℚ))) spl
        (some now) true port,
       [(.cadence, toFixed1 (60 * 1000 / ((now - t : ℤ) : ℚ)))],
       if port then ["IRD088"] else [])
    ∧ onData now (ssToken ++ rest) (mkWR d p tc sp c spl none tmr port) =
      (mkWR d p tc sp c spl (some now) true port, [],
       if port then ["IRD088"] else []) := by
  cases tmr <;>
    simp [onData, parseAndPublishData, mkWR, wrMeasurements, findMeasurement,
          setMeasurement, startsWith, idd14aToken, idd088Token, idd140Token,
          idd057Token, ssToken, iv4Token, wrToken, jsTruthy, send, ht]

/-- C2 witness: previous stroke at 500 ms, next at 1000 ms, cadence 120.0. -/
theorem C2_cadence_witness :
    (500 : ℤ) ≠ 0 ∧
    (onData 1000 (ssToken ++ []) (mkWR 0 0 0 0 0 0 (some 500) false true) =
      (mkWR 0 0 0 0 (toFixed1 (60 * 1000 / ((1000 - 500 : ℤ) : ℚ))) 0
        (some 1000) true true,
       [(.cadence, toFixed1 (60 * 1000 / ((1000 - 500 : ℤ) : ℚ)))],
       if true then ["IRD088"] else [])
    ∧ onData 1000 (ssToken ++ []) (mkWR 0 0 0 0 0 0 none false true) =
      (mkWR 0 0 0 0 0 0 (some 1000) true true, [],
       if true then ["IRD088"] else [])) :=
  ⟨by decide, C2_cadence 1000 500 [] 0 0 0 0 0 0 false true (by decide)⟩

/-- C5 counterexample.  Stop is not idempotent and never closes the output
resource: from a fresh recorder, stop throws (`none`) instead of being a
no-op, and after a start followed by two stops the writer has been closed
zero times, not exactly once, while the summary rows were written twice. -/
theorem C5_cex :
    ActivityRecorder.stop 5000
        ⟨false, 0, false, [], 0, 0, [], recCache 0 0 0 0 0 0 0⟩ = none
    ∧ ((ActivityRecorder.stop 1000000005000
          (ActivityRecorder.start 1000000000000
            ⟨false, 0, false, [], 0, 0, [], recCache 0 0 0 0 0 0 0⟩)).bind
        (fun s => ActivityRecorder.stop 1000000007000 s)).map
          RecState.fileCloses = some 0
    ∧ ((ActivityRecorder.stop 1000000005000
          (ActivityRecorder.start 1000000000000
            ⟨false, 0, false, [], 0, 0, [], recCache 0 0 0 0 0 0 0⟩)).bind
        (fun s => ActivityRecorder.stop 1000000007000 s)).map
          (fun s => s.rows.length) = some 10 := by decide

/-- C5 as amended.  Stop cancels the tick when one is running, then
unconditionally appends the session and activity summary rows; it never
closes the output resource, and with no file ever opened (or a missing
metric) it throws instead of being a no-op. -/
theorem C5_stop (now ts0 : ℤ) (ri fw : Bool) (rows : List Row) (fo fc : ℕ)
    (subs : List (String × Metric)) (hr d p tc sp c spl : ℚ) :
    ActivityRecorder.stop now
        ⟨ri, ts0, fw, rows, fo, fc, subs, recCache hr d p tc sp c spl⟩ =
      if fw then
        some ⟨false, ts0, fw,
              rows ++ [.sessionData ts0 (fitTs now - ts0) d tc,
                       .activityData ts0],
              fo, fc, subs, recCache hr d p tc sp c spl⟩
      else none := by
  cases ri <;> cases fw <;>
    simp [ActivityRecorder.stop, recCache, wrMeasurements, findMeasurement]

/-- C7.  Among the seven dispatch tokens of `onData` (`_WR_`, `IV4`, `SS`,
`IDD088`, `IDD140`, `IDD057`, `IDD14A`), at most one can match any received
line; a line matching none of them is a complete no-op: the state is
unchanged, nothing is published and nothing is sent. -/
theorem C7_dispatch :
    (∀ (line p q : List Char), p ∈ sevenTokens → q ∈ sevenTokens →
       startsWith p line = true → startsWith q line = true → p = q)
    ∧ (∀ (now : ℤ) (line : List Char) (s : WRState),
       (∀ tok ∈ sevenTokens, startsWith tok line = false) →
       onData now line s = (s, [], [])) := by
  constructor
  · intro line p q hp hq h1 h2
    simp only [sevenTokens, List.mem_cons, List.not_mem_nil, or_false] at hp hq
    rcases hp with rfl | rfl | rfl | rfl | rfl | rfl | rfl <;>
      rcases hq with rfl | rfl | rfl | rfl | rfl | rfl | rfl <;>
      first
        | rfl
        | (rcases startsWith_comparable _ _ _ h1 h2 with h | h <;>
             exact absurd h (by decide))
  · intro now line s h
    have h1 := h wrToken (by simp [sevenTokens])
    have h2 := h iv4Token (by simp [sevenTokens])
    have h3 := h ssToken (by simp [sevenTokens])
    have h4 := h idd088Token (by simp [sevenTokens])
    have h5 := h idd140Token (by simp [sevenTokens])
    have h6 := h idd057Token (by simp [sevenTokens])
    have h7 := h idd14aToken (by simp [sevenTokens])
    simp [onData, h1, h2, h3, h4, h5, h6, h7]

/-- C7 witness: the line `XY` matches no token and is dropped silently. -/
theorem C7_dispatch_witness :
    (∀ tok ∈ sevenTokens, startsWith tok ['X', 'Y'] = false) ∧
    onData 0 ['X', 'Y'] (mkWR 0 0 0 0 0 0 none false true) =
      (mkWR 0 0 0 0 0 0 none false true, [], []) :=
  ⟨by decide, C7_dispatch.2 0 ['X', 'Y'] (mkWR 0 0 0 0 0 0 none false true)
    (by decide)⟩

/-- A hex digit's code point lies in one of the three digit ranges. -/
theorem hexRange {c : Char} {d : ℕ} (h : hexDigitVal c = some d) :
    (48 ≤ c.toNat ∧ c.toNat ≤ 57) ∨ (97 ≤ c.toNat ∧ c.toNat ≤ 102) ∨
    (65 ≤ c.toNat ∧ c.toNat ≤ 70) := by
  unfold hexDigitVal at h
  split_ifs at h with h1 h2 h3
  · exact Or.inl h1
  · exact Or.inr (Or.inl h2)
  · exact Or.inr (Or.inr h3)

/-- A hex digit is not `parseInt` whitespace. -/
theorem hexNotWs {c : Char} {d : ℕ} (h : hexDigitVal c = some d) :
    isJsWs c = false := by
  have hr := hexRange h
  simp only [isJsWs, decide_eq_false_iff_not]
  omega

/-- A hex digit is not a sign character. -/
theorem hexNeSign {c : Char} {d : ℕ} (h : hexDigitVal c = some d) :
    c ≠ '-' ∧ c ≠ '+' := by
  have hr := hexRange h
  constructor <;> intro he <;> subst he <;> exact absurd hr (by decide)

/-- A hex digit is neither `x` nor `X`. -/
theorem hexNeX {c : Char} {d : ℕ} (h : hexDigitVal c = some d) :
    c ≠ 'x' ∧ c ≠ 'X' := by
  have hr := hexRange h
  constructor <;> intro he <;> subst he <;> exact absurd hr (by decide)

/-- Behavior of `parseInt(_, 16)` on a field whose first two characters are hex digits:
the whole leading digit run is consumed, starting with those two digits. -/
theorem jsParseIntHex_digits {c1 c2 : Char} {d1 d2 : ℕ} (tail : List Char)
    (h1 : hexDigitVal c1 = some d1) (h2 : hexDigitVal c2 = some d2) :
    jsParseIntHex (c1 :: c2 :: tail) =
      some ((hexDigitsAux tail (d1 * 16 + d2) : ℕ) : ℤ) := by
  have hw := hexNotWs h1
  have hs := hexNeSign h1
  have hx := hexNeX h2
  simp [jsParseIntHex, List.dropWhile, hw, hs.1, hs.2, strip0x, hx.1, hx.2,
        parseHexRun, h1, hexDigitsAux, h2]

/-- The 4-character field of a line with a 6-character routing token. -/
theorem payloadField_at {p tail : List Char} (hp : p.length = 6) :
    payloadField (p ++ tail) = tail.take 4 := by
  unfold payloadField
  rw [← hp, List.drop_left]

/-- C4 counterexample.  The field `12G4` contains the non-hex character `G`,
yet the decoded value is 18 (the leading run `12` in base 16), not 0 as the
claim requires for a payload with non-hex characters. -/
theorem C4_cex :
    decodeValue "IDD14012G4".data = 18
    ∧ hexDigitVal 'G' = none
    ∧ (18 : ℤ) ≠ 0 := by decide

/-- C4 as amended.  A payload of 4 hex digits at offset 6 decodes to its
exact base-16 value; more generally the decoder takes the longest leading
hex-digit run of the field, so a too-short payload or one with trailing
non-hex characters decodes to the value of its leading run; only a field
with no leading hex digit at all (JS `NaN`) decodes to 0 — never an error. -/
theorem C4_decode :
    (∀ (p rest : List Char) (c1 c2 c3 c4 : Char) (d1 d2 d3 d4 : ℕ),
       p.length = 6 →
       hexDigitVal c1 = some d1 → hexDigitVal c2 = some d2 →
       hexDigitVal c3 = some d3 → hexDigitVal c4 = some d4 →
       decodeValue (p ++ ([c1, c2, c3, c4] ++ rest)) =
         ((((d1 * 16 + d2) * 16 + d3) * 16 + d4 : ℕ) : ℤ))
    ∧ (∀ (p : List Char) (c1 c2 : Char) (d1 d2 : ℕ),
       p.length = 6 →
       hexDigitVal c1 = some d1 → hexDigitVal c2 = some d2 →
       decodeValue (p ++ [c1, c2]) = ((d1 * 16 + d2 : ℕ) : ℤ))
    ∧ (∀ (p rest : List Char) (c1 c2 g x : Char) (d1 d2 : ℕ),
       p.length = 6 →
       hexDigitVal c1 = some d1 → hexDigitVal c2 = some d2 →
       hexDigitVal g = none →
       decodeValue (p ++ ([c1, c2, g, x] ++ rest)) = ((d1 * 16 + d2 : ℕ) : ℤ))
    ∧ (∀ s : List Char,
       jsParseIntHex (payloadField s) = none → decodeValue s = 0) := by
  refine ⟨?_, ?_, ?_, ?_⟩
  · intro p rest c1 c2 c3 c4 d1 d2 d3 d4 hp h1 h2 h3 h4
    unfold decodeValue
    rw [payloadField_at hp]
    simp [jsParseIntHex_digits _ h1 h2, hexDigitsAux, h3, h4]
  · intro p c1 c2 d1 d2 hp h1 h2
    unfold decodeValue
    rw [payloadField_at hp]
    simp [jsParseIntHex_digits _ h1 h2, hexDigitsAux]
  · intro p rest c1 c2 g x d1 d2 hp h1 h2 hg
    unfold decodeValue
    rw [payloadField_at hp]
    simp [jsParseIntHex_digits _ h1 h2, hexDigitsAux, hg]
  · intro s hs
    unfold decodeValue
    rw [hs]

/-- C4 witness: the payload `0064` at offset 6 decodes to 100. -/
theorem C4_decode_witness :
    (("IDD140".data.length = 6 ∧ hexDigitVal '0' = some 0 ∧
       hexDigitVal '6' = some 6 ∧ hexDigitVal '4' = some 4) ∧
     decodeValue ("IDD140".data ++ (['0', '0', '6', '4'] ++ [])) =
       ((((0 * 16 + 0) * 16 + 6) * 16 + 4 : ℕ) : ℤ)) :=
  ⟨by decide, C4_decode.1 "IDD140".data [] '0' '0' '6' '4' 0 0 6 4
    (by decide) (by decide) (by decide) (by decide) (by decide)⟩

/-- C9.  The recorder cache holds references to the very measurement cells
the devices own: for every heap state the recorder's value for a metric
equals the owning device's value, and a driver's in-place write to a cell is
immediately visible through the recorder's cache with no bus delivery. -/
theorem C9_alias (h : ℕ → ℚ) (m : Metric) (u : MetricUnit) (i : ℕ) (v : ℚ)
    (dev : DeviceRef) (hd : dev ∈ mainDevices) (hm : (i, m, u) ∈ dev.cells) :
    readVia h (recorderCells mainDevices) m = readVia h dev.cells m
    ∧ readVia (heapWrite h i v) (recorderCells mainDevices) m = some v := by
  fin_cases hd <;> fin_cases hm <;>
    simp [readVia, recorderCells, mainDevices, heapWrite, List.find?]

/-- C9 witness: cell 1 (the WaterRower's distance measurement) read through
the recorder equals the device read, and a direct write of 42 to it is seen
by the recorder. -/
theorem C9_alias_witness :
    ((⟨"waterrower", [(1, .distance, .m), (2, .power, .watts),
        (3, .total_cycles, .cycles), (4, .speed, .mps),
        (5, .cadence, .spm), (6, .split, .sPer500m)]⟩ : DeviceRef) ∈
          mainDevices ∧
     ((1 : ℕ), Metric.distance, MetricUnit.m) ∈
       (⟨"waterrower", [(1, .distance, .m), (2, .power, .watts),
          (3, .total_cycles, .cycles), (4, .speed, .mps),
          (5, .cadence, .spm), (6, .split, .sPer500m)]⟩ : DeviceRef).cells) ∧
    (readVia (fun _ => 0) (recorderCells mainDevices) Metric.distance =
       readVia (fun _ => 0)
         (⟨"waterrower", [(1, .distance, .m), (2, .power, .watts),
            (3, .total_cycles, .cycles), (4, .speed, .mps),
            (5, .cadence, .spm), (6, .split, .sPer500m)]⟩ : DeviceRef).cells
         Metric.distance
     ∧ readVia (heapWrite (fun _ => 0) 1 42) (recorderCells mainDevices)
         Metric.distance = some 42) :=
  ⟨⟨by decide, by decide⟩,
   C9_alias (fun _ => 0) Metric.distance MetricUnit.m 1 42 _
     (by decide) (by decide)⟩

end WaterRower
